import Mathlib

/-!
Verification of the credential and external-token lifecycle core of the
household-management backend (Rust, `src/backend`), shallowly embedded in
Lean 4.  Timestamps are seconds: `usize` timestamps of the session-token
codec become `Nat`, `chrono` UTC instants of the OAuth broker become `Int`.
Wall-clock reads (`SystemTime::now()`, `Utc::now()`) are passed in as
explicit `now` parameters; the database settings rows and cache rows are
explicit state records threaded through each function; every outbound
network call is an explicit `Except`-valued outcome parameter, and the
embedded functions report how many such calls they perform.
-/

/-- Session-token claims, from `utils/jwt.rs` (`struct Claims`): subject id,
role tag, expiry and issued-at in whole seconds since the epoch. -/
structure Claims where
  sub : String
  role : String
  exp : Nat
  iat : Nat
deriving DecidableEq

/-- Modelled from the spec: the HMAC signing performed inside the
`jsonwebtoken` crate (`encode`), whose source and pinned version are not part
of `src/`.  Per the spec the token is a signed, serialized claims record
under an HMAC-class signature keyed by `secret`; the model makes the
signature a value determined by exactly the pair (secret bytes, claims), so
that it matches on verification exactly when both coincide. -/
def jwt_signature (secret : String) (c : Claims) : String × Claims :=
  (secret, c)

/-- A session token on the wire: either a structurally well-formed signed
claims record, or a malformed string that fails to decode at all. -/
inductive Jwt where
  | token (claims : Claims) (sig : String × Claims)
  | malformed
deriving DecidableEq

/-- `create_jwt` from `utils/jwt.rs`: claims carry `iat = now` and
`exp = now + 60 * 60 * 24 * 30` (30 days), signed under `secret`.  The two
`SystemTime::now()` reads in the source are modelled as the same instant
`now` (nothing suspends between them). -/
def create_jwt (user_id : String) (role : String) (secret : String) (now : Nat) : Jwt :=
  let expiration := now + 60 * 60 * 24 * 30
  let claims : Claims := { sub := user_id, role := role, exp := expiration, iat := now }
  Jwt.token claims (jwt_signature secret claims)

/-- `verify_jwt` from `utils/jwt.rs`.  Modelled from the spec: the
`jsonwebtoken::decode` internals (signature check and expiry validation
behind `Validation::default()`) are in the dependency, not in `src/`; the
spec states verification fails if the signature is invalid, the token is
structurally malformed, or `exp ≤ now` (strict wall-clock comparison, no
clock-skew leeway). -/
def verify_jwt (t : Jwt) (secret : String) (now : Nat) : Except String Claims :=
  match t with
  | Jwt.malformed => Except.error "InvalidToken"
  | Jwt.token c sig =>
    if sig = jwt_signature secret c then
      if c.exp ≤ now then Except.error "ExpiredSignature"
      else Except.ok c
    else Except.error "InvalidSignature"

/-- Modulus of the 64-bit `usize` arithmetic of the target platform. -/
def USIZE_MOD : Nat := 2 ^ 64

/-- Wrapping 64-bit subtraction: the release-profile semantics of the Rust
expression `a - b` on `usize` when `b > a`. -/
def usize_sub (a b : Nat) : Nat :=
  (a % USIZE_MOD + (USIZE_MOD - b % USIZE_MOD)) % USIZE_MOD

/-- `should_refresh_token` from `utils/jwt.rs`: refresh once the remaining
lifetime `claims.exp - now` drops below half of the 30-day total.  The
subtraction is `usize` arithmetic, embedded with its release-profile
wrapping semantics (in the debug profile the same expression panics when
`now > exp`). -/
def should_refresh_token (c : Claims) (now : Nat) : Bool :=
  let total_duration := 60 * 60 * 24 * 30
  let halfway := total_duration / 2
  usize_sub c.exp now < halfway

lemma usize_sub_of_le {a b : Nat} (hba : b ≤ a) (ha : a < USIZE_MOD) :
    usize_sub a b = a - b := by
  have hb : b < USIZE_MOD := lt_of_le_of_lt hba ha
  unfold usize_sub
  rw [Nat.mod_eq_of_lt ha, Nat.mod_eq_of_lt hb]
  have h1 : a + (USIZE_MOD - b) = (a - b) + USIZE_MOD := by omega
  rw [h1, Nat.add_mod_right, Nat.mod_eq_of_lt (by omega)]

/-- C5: verifying a freshly minted token under the same secret at the minting
instant succeeds and returns exactly the minted claims: the given subject and
role, `iat = now`, `exp = now + 2592000`, so `exp - iat` is exactly the fixed
30-day lifetime (2,592,000 seconds). -/
theorem verify_create_jwt_roundtrip (uid role secret : String) (now : Nat) :
    verify_jwt (create_jwt uid role secret now) secret now =
      Except.ok { sub := uid, role := role, exp := now + 2592000, iat := now } ∧
    (now + 2592000) - now = 2592000 := by
  refine ⟨?_, by omega⟩
  have hfut : ¬ (now + 60 * 60 * 24 * 30 ≤ now) := by omega
  simp [create_jwt, verify_jwt, jwt_signature, hfut]

/-- C2: session-token verification fails on a signature produced under a
different secret, on a structurally malformed token, on any token whose
`exp ≤ now`, and in particular on a token whose `exp` equals `now - 1`
(stated as `exp + 1 = now`), with no clock-skew tolerance. -/
theorem verify_jwt_rejects (c : Claims) (secret secret2 : String) (now : Nat) :
    (secret2 ≠ secret →
      (verify_jwt (Jwt.token c (jwt_signature secret c)) secret2 now).isOk = false) ∧
    (verify_jwt Jwt.malformed secret now).isOk = false ∧
    (c.exp ≤ now →
      (verify_jwt (Jwt.token c (jwt_signature secret c)) secret now).isOk = false) ∧
    (c.exp + 1 = now →
      (verify_jwt (Jwt.token c (jwt_signature secret c)) secret now).isOk = false) := by
  refine ⟨?_, rfl, ?_, ?_⟩
  · intro hne
    have hne2 : secret ≠ secret2 := Ne.symm hne
    simp [verify_jwt, jwt_signature, hne2, Except.isOk, Except.toBool]
  · intro hle
    simp [verify_jwt, jwt_signature, hle, Except.isOk, Except.toBool]
  · intro h1
    have hle : c.exp ≤ now := by omega
    simp [verify_jwt, jwt_signature, hle, Except.isOk, Except.toBool]

/-- Concrete claims used to exercise the verification-rejection theorem. -/
def claimsEx : Claims := { sub := "u1", role := "admin", exp := 10, iat := 0 }

/-- C2 witness: at `now = 11` the concrete token with `exp = 10` (so
`exp = now - 1`) is rejected under its own secret, and is rejected under the
different secret `"k2"`. -/
theorem verify_jwt_rejects_witness :
    (verify_jwt (Jwt.token claimsEx (jwt_signature "k1" claimsEx)) "k2" 11).isOk = false ∧
    (verify_jwt (Jwt.token claimsEx (jwt_signature "k1" claimsEx)) "k1" 11).isOk = false :=
  ⟨(verify_jwt_rejects claimsEx "k1" "k2" 11).1 (by decide),
   (verify_jwt_rejects claimsEx "k1" "k1" 11).2.2.2 (by decide)⟩

/-- Concrete claims refuting time-monotonicity of `should_refresh_token`:
the token expires at second 100. -/
def claimsWrap : Claims := { sub := "u1", role := "admin", exp := 100, iat := 0 }

/-- C4 counterexample: for the concrete claims with `exp = 100`,
`should_refresh_token` is true at instant 99 but false at the later instant
101 — once the clock passes `exp`, the `usize` subtraction `exp - now` wraps
to a huge value, so the result flips back to false; renewal-need is neither
monotonic in time nor equivalent to "remaining lifetime below 15 days". -/
theorem should_refresh_token_not_monotonic :
    should_refresh_token claimsWrap 99 = true ∧ (99 : Nat) ≤ 101 ∧
    should_refresh_token claimsWrap 101 = false := by
  refine ⟨by decide, by omega, by decide⟩

/-- C4 amended: as long as the clock has not passed the expiry (`now ≤ exp`,
with `exp` in `usize` range), `should_refresh_token` is true exactly when the
remaining lifetime `exp - now` is below 15 days (1,296,000 s); it is false at
the minting instant of a fresh 30-day token; and it is monotonic between any
two instants that do not exceed the expiry. -/
theorem should_refresh_token_spec (c : Claims) (t1 t2 : Nat) (hexp : c.exp < 2 ^ 64) :
    (∀ now, now ≤ c.exp → (should_refresh_token c now = true ↔ c.exp - now < 1296000)) ∧
    (c.exp = c.iat + 2592000 → should_refresh_token c c.iat = false) ∧
    (t1 ≤ t2 → t2 ≤ c.exp → should_refresh_token c t1 = true →
      should_refresh_token c t2 = true) := by
  have hU : c.exp < USIZE_MOD := hexp
  have key : ∀ now, now ≤ c.exp → (should_refresh_token c now = true ↔ c.exp - now < 1296000) := by
    intro now hle
    unfold should_refresh_token
    rw [usize_sub_of_le hle hU]
    simp
  refine ⟨key, ?_, ?_⟩
  · intro hmint
    cases h : should_refresh_token c c.iat with
    | false => rfl
    | true =>
      have := (key c.iat (by omega)).mp h
      omega
  · intro h12 h2e h1
    have e1 := (key t1 (by omega)).mp h1
    exact (key t2 h2e).mpr (by omega)

/-- Concrete freshly-minted claims for the renewal-policy witness:
`iat = 0`, `exp = 2592000`. -/
def claimsMint : Claims := { sub := "u1", role := "admin", exp := 2592000, iat := 0 }

/-- C4 amended witness: for the concrete 30-day token minted at 0, renewal is
needed at instant 2,000,000 (less than 15 days remain), obtained from the
monotonicity clause with the earlier instant 1,300,000. -/
theorem should_refresh_token_spec_witness :
    should_refresh_token claimsMint 2000000 = true :=
  (should_refresh_token_spec claimsMint 1300000 2000000 (by decide)).2.2
    (by decide) (by decide) (by decide)

/-- Google token-endpoint response, from `utils/google_oauth.rs`
(`struct TokenResponse`); `expires_in` is an `i64` number of seconds. -/
structure TokenResponse where
  access_token : String
  expires_in : Int
  refresh_token : Option String
  scope : String
  token_type : String
deriving DecidableEq

/-- The durable `settings` key/value rows relevant to the OAuth token
lifecycle, one field per fixed key used by the source. -/
structure SettingsStore where
  google_photos_access_token : Option String
  google_photos_token_expiry : Option String
  google_photos_refresh_token : Option String
  google_oauth_state : Option String
deriving DecidableEq

/-- Result of one `get_valid_access_token` call: the returned token or error
message, the settings rows after the call, and how many refresh-token
exchanges (`refresh_access_token` network calls) were performed. -/
structure TokenFetchOutcome where
  result : Except String String
  store : SettingsStore
  refreshCalls : Nat

/-- `get_valid_access_token` from `utils/google_oauth.rs`.  `now` is the
`Utc::now()` instant; `parse` is `str::parse::<DateTime<Utc>>` (returning
`none` on an unparsable stored expiry); `rfc3339` is `DateTime::to_rfc3339`;
`creds` is the outcome of `get_google_credentials` (none when the client id
or secret is empty); `refreshOutcome` is the outcome of the
`refresh_access_token` network exchange, consulted only if that call is
made. -/
def get_valid_access_token (store : SettingsStore) (now : Int)
    (parse : String → Option Int) (rfc3339 : Int → String)
    (creds : Option (String × String))
    (refreshOutcome : Except String TokenResponse) : TokenFetchOutcome :=
  match store.google_photos_access_token with
  | none => ⟨Except.error "No access token found", store, 0⟩
  | some access_token =>
    match store.google_photos_token_expiry with
    | some expiry_str =>
      match parse expiry_str with
      | some expiry =>
        if expiry ≤ now then
          match store.google_photos_refresh_token with
          | none => ⟨Except.error "No refresh token found", store, 0⟩
          | some _refresh_token =>
            match creds with
            | none => ⟨Except.error "Google OAuth not configured.", store, 0⟩
            | some _cred =>
              match refreshOutcome with
              | Except.error e => ⟨Except.error e, store, 1⟩
              | Except.ok tr =>
                let new_expiry := now + tr.expires_in
                ⟨Except.ok tr.access_token,
                 { store with
                    google_photos_access_token := some tr.access_token,
                    google_photos_token_expiry := some (rfc3339 new_expiry) }, 1⟩
        else ⟨Except.ok access_token, store, 0⟩
      | none => ⟨Except.ok access_token, store, 0⟩
    | none => ⟨Except.ok access_token, store, 0⟩

/-- Settings rows holding an access token and a refresh token but no expiry
row at all. -/
def storeNoExpiry : SettingsStore :=
  { google_photos_access_token := some "A"
    google_photos_token_expiry := none
    google_photos_refresh_token := some "R"
    google_oauth_state := none }

/-- A concrete successful token-endpoint response. -/
def trOk : TokenResponse :=
  { access_token := "N", expires_in := 3600, refresh_token := none
    scope := "", token_type := "Bearer" }

/-- C1 counterexample: with a stored access token, a stored refresh token,
and an unknown (absent) expiry row, `get_valid_access_token` performs zero
refresh-token exchanges and returns the stored token with the settings rows
unchanged, whereas the claim requires exactly one refresh-token exchange in
the unknown-expiry case. -/
theorem get_valid_access_token_unknown_expiry_no_refresh :
    (get_valid_access_token storeNoExpiry 1000 (fun _ => none) (fun _ => "")
        (some ("id", "sec")) (Except.ok trOk)).refreshCalls = 0 ∧
    (get_valid_access_token storeNoExpiry 1000 (fun _ => none) (fun _ => "")
        (some ("id", "sec")) (Except.ok trOk)).result = Except.ok "A" ∧
    (get_valid_access_token storeNoExpiry 1000 (fun _ => none) (fun _ => "")
        (some ("id", "sec")) (Except.ok trOk)).store = storeNoExpiry ∧
    ¬ (get_valid_access_token storeNoExpiry 1000 (fun _ => none) (fun _ => "")
        (some ("id", "sec")) (Except.ok trOk)).refreshCalls = 1 :=
  ⟨rfl, rfl, rfl, by decide⟩

/-- C1 amended: `get_valid_access_token` returns the stored access token with
no refresh-token exchange whenever the stored expiry is strictly in the
future, and also whenever the expiry row is absent or unparsable; when the
expiry is known and not in the future it performs exactly one refresh-token
exchange provided a refresh token and credentials exist (persisting the new
access token and the new expiry `now + expires_in` on success, propagating
the exchange error otherwise), and fails without any exchange when no
refresh token exists; with no stored access token it fails immediately. -/
theorem get_valid_access_token_spec (store : SettingsStore) (now : Int)
    (parse : String → Option Int) (rfc3339 : Int → String)
    (creds : Option (String × String)) (ro : Except String TokenResponse) :
    (store.google_photos_access_token = none →
      get_valid_access_token store now parse rfc3339 creds ro =
        ⟨Except.error "No access token found", store, 0⟩) ∧
    (∀ a, store.google_photos_access_token = some a →
      store.google_photos_token_expiry = none →
      get_valid_access_token store now parse rfc3339 creds ro =
        ⟨Except.ok a, store, 0⟩) ∧
    (∀ a s, store.google_photos_access_token = some a →
      store.google_photos_token_expiry = some s → parse s = none →
      get_valid_access_token store now parse rfc3339 creds ro =
        ⟨Except.ok a, store, 0⟩) ∧
    (∀ a s e, store.google_photos_access_token = some a →
      store.google_photos_token_expiry = some s → parse s = some e → now < e →
      get_valid_access_token store now parse rfc3339 creds ro =
        ⟨Except.ok a, store, 0⟩) ∧
    (∀ a s e, store.google_photos_access_token = some a →
      store.google_photos_token_expiry = some s → parse s = some e → e ≤ now →
      store.google_photos_refresh_token = none →
      get_valid_access_token store now parse rfc3339 creds ro =
        ⟨Except.error "No refresh token found", store, 0⟩) ∧
    (∀ a s e r cred msg, store.google_photos_access_token = some a →
      store.google_photos_token_expiry = some s → parse s = some e → e ≤ now →
      store.google_photos_refresh_token = some r → creds = some cred →
      ro = Except.error msg →
      get_valid_access_token store now parse rfc3339 creds ro =
        ⟨Except.error msg, store, 1⟩) ∧
    (∀ a s e r cred tr, store.google_photos_access_token = some a →
      store.google_photos_token_expiry = some s → parse s = some e → e ≤ now →
      store.google_photos_refresh_token = some r → creds = some cred →
      ro = Except.ok tr →
      get_valid_access_token store now parse rfc3339 creds ro =
        ⟨Except.ok tr.access_token,
         { store with
            google_photos_access_token := some tr.access_token,
            google_photos_token_expiry := some (rfc3339 (now + tr.expires_in)) },
         1⟩) := by
  refine ⟨?_, ?_, ?_, ?_, ?_, ?_, ?_⟩
  · intro h
    simp [get_valid_access_token, h]
  · intro a ha hexp
    simp [get_valid_access_token, ha, hexp]
  · intro a s ha hs hp
    simp [get_valid_access_token, ha, hs, hp]
  · intro a s e ha hs hp hfut
    simp [get_valid_access_token, ha, hs, hp, not_le.mpr hfut]
  · intro a s e ha hs hp hpast hr
    simp [get_valid_access_token, ha, hs, hp, hpast, hr]
  · intro a s e r cred msg ha hs hp hpast hr hcred hro
    simp [get_valid_access_token, ha, hs, hp, hpast, hr, hcred, hro]
  · intro a s e r cred tr ha hs hp hpast hr hcred hro
    simp [get_valid_access_token, ha, hs, hp, hpast, hr, hcred, hro]

/-- Settings rows with a stored access token, a refresh token, and an expiry
row whose literal text the witness parser maps to instant 100. -/
def storePast : SettingsStore :=
  { google_photos_access_token := some "A"
    google_photos_token_expiry := some "100"
    google_photos_refresh_token := some "R"
    google_oauth_state := none }

/-- C1 amended witness: at `now = 200`, past the stored expiry 100, a call
with a successful exchange performs the refresh and persists the new token
and the new expiry encoding of `200 + 3600`. -/
theorem get_valid_access_token_spec_witness :
    get_valid_access_token storePast 200 (fun _ => some 100) (fun _ => "enc")
        (some ("id", "sec")) (Except.ok trOk) =
      ⟨Except.ok "N",
       { google_photos_access_token := some "N"
         google_photos_token_expiry := some "enc"
         google_photos_refresh_token := some "R"
         google_oauth_state := none }, 1⟩ :=
  (get_valid_access_token_spec storePast 200 (fun _ => some 100) (fun _ => "enc")
      (some ("id", "sec")) (Except.ok trOk)).2.2.2.2.2.2
    "A" "100" 100 "R" ("id", "sec") trOk rfl rfl rfl (by decide) rfl rfl rfl

/-- Rust `str::trim_end_matches('/')`: drop every trailing slash. -/
def trim_end_slashes (s : String) : String :=
  String.mk (s.toList.reverse.dropWhile (fun ch => ch = '/')).reverse

/-- Result of one `google_oauth_callback` request: the redirect target or the
error message, and the settings rows after the request. -/
structure CallbackOutcome where
  result : Except String String
  store : SettingsStore

/-- `google_oauth_callback` from `handlers/google_photos.rs`.  `paramsState`
is the `state` query parameter; `exchangeOutcome` is the outcome of the
`exchange_code_for_tokens` network call (consulted only when the CSRF state
matches); `now` is `Utc::now()` and `rfc3339` is `DateTime::to_rfc3339`;
`base` is the configured base URL used for the success redirect. -/
def google_oauth_callback (store : SettingsStore) (paramsState : String)
    (exchangeOutcome : Except String TokenResponse) (now : Int)
    (rfc3339 : Int → String) (base : String) : CallbackOutcome :=
  if store.google_oauth_state ≠ some paramsState then
    ⟨Except.error "Invalid OAuth state", store⟩
  else
    match exchangeOutcome with
    | Except.error e => ⟨Except.error ("Failed to exchange OAuth code: " ++ e), store⟩
    | Except.ok tr =>
      let s1 := { store with google_photos_access_token := some tr.access_token }
      let s2 :=
        match tr.refresh_token with
        | some rt => { s1 with google_photos_refresh_token := some rt }
        | none => s1
      let expiry := now + tr.expires_in
      let s3 := { s2 with google_photos_token_expiry := some (rfc3339 expiry) }
      let s4 := { s3 with google_oauth_state := none }
      ⟨Except.ok (trim_end_slashes base ++ "/settings?google_photos=connected"), s4⟩

/-- C3: the OAuth code-exchange callback fails with the invalid-state error
whenever the `state` query parameter differs from the persisted CSRF value
(leaving the settings rows untouched); a failed exchange also leaves the
rows, including the CSRF value, untouched; and on a successful exchange it
persists the access token, the refresh token when one is returned, and the
expiry `now + expires_in`, deletes the persisted CSRF value, and therefore
fails with the same invalid-state error on any replay against the resulting
rows. -/
theorem google_oauth_callback_csrf (store : SettingsStore) (s s2 : String)
    (ro ro2 : Except String TokenResponse) (now now2 : Int)
    (rfc3339 : Int → String) (base : String) :
    (store.google_oauth_state ≠ some s →
      google_oauth_callback store s ro now rfc3339 base =
        ⟨Except.error "Invalid OAuth state", store⟩) ∧
    (∀ msg, store.google_oauth_state = some s → ro = Except.error msg →
      google_oauth_callback store s ro now rfc3339 base =
        ⟨Except.error ("Failed to exchange OAuth code: " ++ msg), store⟩) ∧
    (∀ tr, store.google_oauth_state = some s → ro = Except.ok tr →
      (google_oauth_callback store s ro now rfc3339 base).store.google_photos_access_token
          = some tr.access_token ∧
      (google_oauth_callback store s ro now rfc3339 base).store.google_photos_token_expiry
          = some (rfc3339 (now + tr.expires_in)) ∧
      (∀ rt, tr.refresh_token = some rt →
        (google_oauth_callback store s ro now rfc3339 base).store.google_photos_refresh_token
            = some rt) ∧
      (tr.refresh_token = none →
        (google_oauth_callback store s ro now rfc3339 base).store.google_photos_refresh_token
            = store.google_photos_refresh_token) ∧
      (google_oauth_callback store s ro now rfc3339 base).store.google_oauth_state = none ∧
      (google_oauth_callback store s ro now rfc3339 base).result =
        Except.ok (trim_end_slashes base ++ "/settings?google_photos=connected") ∧
      google_oauth_callback
          (google_oauth_callback store s ro now rfc3339 base).store
          s2 ro2 now2 rfc3339 base =
        ⟨Except.error "Invalid OAuth state",
         (google_oauth_callback store s ro now rfc3339 base).store⟩) := by
  refine ⟨?_, ?_, ?_⟩
  · intro hne
    simp [google_oauth_callback, hne]
  · intro msg hst hro
    simp [google_oauth_callback, hst, hro]
  · intro tr hst hro
    have hout : (google_oauth_callback store s ro now rfc3339 base).store.google_oauth_state
        = none := by
      cases hrt : tr.refresh_token <;>
        simp [google_oauth_callback, hst, hro, hrt]
    refine ⟨?_, ?_, ?_, ?_, hout, ?_, ?_⟩
    · cases hrt : tr.refresh_token <;>
        simp [google_oauth_callback, hst, hro, hrt]
    · cases hrt : tr.refresh_token <;>
        simp [google_oauth_callback, hst, hro, hrt]
    · intro rt hrt
      simp [google_oauth_callback, hst, hro, hrt]
    · intro hrt
      simp [google_oauth_callback, hst, hro, hrt]
    · cases hrt : tr.refresh_token <;>
        simp [google_oauth_callback, hst, hro, hrt]
    · have replay : ∀ st2 : SettingsStore, st2.google_oauth_state = none →
          google_oauth_callback st2 s2 ro2 now2 rfc3339 base =
            ⟨Except.error "Invalid OAuth state", st2⟩ := by
        intro st2 h2
        have hne2 : st2.google_oauth_state ≠ some s2 := by
          rw [h2]
          intro h
          exact Option.noConfusion h
        simp [google_oauth_callback, hne2]
      exact replay _ hout

/-- Settings rows holding the persisted CSRF state value `"st"`. -/
def storeCsrf : SettingsStore :=
  { google_photos_access_token := none
    google_photos_token_expiry := none
    google_photos_refresh_token := none
    google_oauth_state := some "st" }

/-- C3 witness: against rows whose persisted CSRF value is `"st"`, a callback
carrying state `"forged"` fails with the invalid-state error and leaves the
rows unchanged, even though the code exchange would have succeeded. -/
theorem google_oauth_callback_csrf_witness :
    google_oauth_callback storeCsrf "forged" (Except.ok trOk) 0 (fun _ => "enc") "b" =
      ⟨Except.error "Invalid OAuth state", storeCsrf⟩ :=
  (google_oauth_callback_csrf storeCsrf "forged" "x" (Except.ok trOk) (Except.ok trOk)
      0 0 (fun _ => "enc") "b").1 (by decide)

/-- A `calendars` table row, from `models/calendar.rs`: a calendar is either
Google-backed (`google_id` set) or URL-backed (`url` set). -/
structure CalendarRow where
  id : String
  google_id : Option String
  url : Option String
deriving DecidableEq

/-- Payload returned by the calendar-feed endpoint: the JSON events blob of a
Google-backed calendar, or the raw ICS body of a URL-backed one. -/
inductive FeedPayload where
  | jsonEvents (s : String)
  | ics (s : String)
deriving DecidableEq

/-- Result of one `get_calendar_feed` request: the response or error, the
per-calendar Google events cache row and ICS feed cache row after the
request, and the number of provider fetches (Google events fetch or ICS
download) the handler itself performed.  Refresh-token exchanges inside
`get_valid_access_token` are accounted separately by `TokenFetchOutcome`. -/
structure FeedOutcome where
  result : Except String FeedPayload
  gcache : Option (String × Int)
  icache : Option String
  fetches : Nat

/-- The Google branch of `get_calendar_feed` past the freshness check: obtain
an access token via `get_valid_access_token` (outcome `tokenOutcome`), fetch
the events (outcome `eventsOutcome`), and on success overwrite the cache row
with the serialized events stamped `now`. -/
def google_events_refresh (gcache : Option (String × Int)) (icache : Option String)
    (now : Int) (tokenOutcome eventsOutcome : Except String String) : FeedOutcome :=
  match tokenOutcome with
  | Except.error e => ⟨Except.error ("Failed to get access token: " ++ e), gcache, icache, 0⟩
  | Except.ok _tok =>
    match eventsOutcome with
    | Except.error e => ⟨Except.error ("Failed to fetch events: " ++ e), gcache, icache, 1⟩
    | Except.ok ev => ⟨Except.ok (FeedPayload.jsonEvents ev), some (ev, now), icache, 1⟩

/-- `get_calendar_feed` from `handlers/calendar.rs`.  `authOk` is the outcome
of the bearer-token verification prelude; `cal` is the database lookup of the
calendar row; `gcache` is the `google_calendar_cache` row for this calendar
(events JSON and `fetched_at`); `icache` is the `calendar_feed_cache` row
(raw ICS body — its `fetched_at` is never read); `now` is `Utc::now()`.  The
freshness test is chrono `num_minutes`: `(now - cached_at) / 60 < 10` with
truncating division.  `icsOutcome` is the direct HTTP download of a
URL-backed calendar (collapsing send, status and body-read failures). -/
def get_calendar_feed (authOk : Bool) (cal : Option CalendarRow)
    (gcache : Option (String × Int)) (icache : Option String) (now : Int)
    (tokenOutcome eventsOutcome icsOutcome : Except String String) : FeedOutcome :=
  if authOk = false then ⟨Except.error "Unauthorized", gcache, icache, 0⟩ else
  match cal with
  | none => ⟨Except.error "Calendar not found", gcache, icache, 0⟩
  | some c =>
    match c.google_id with
    | some _gid =>
      match gcache with
      | some (cached_events, cached_at) =>
        if Int.tdiv (now - cached_at) 60 < 10 then
          ⟨Except.ok (FeedPayload.jsonEvents cached_events), gcache, icache, 0⟩
        else google_events_refresh gcache icache now tokenOutcome eventsOutcome
      | none => google_events_refresh gcache icache now tokenOutcome eventsOutcome
    | none =>
      match c.url with
      | some _u =>
        match icache with
        | some feed => ⟨Except.ok (FeedPayload.ics feed), gcache, icache, 0⟩
        | none =>
          match icsOutcome with
          | Except.error _e =>
            ⟨Except.error "Failed to fetch calendar from provider", gcache, icache, 1⟩
          | Except.ok body => ⟨Except.ok (FeedPayload.ics body), gcache, some body, 1⟩
      | none => ⟨Except.error "Calendar has no URL or ID", gcache, icache, 0⟩

/-- `get_weather` from `handlers/weather.rs`: read the single `weather_cache`
row; `parse` is `serde_json::from_str` on the stored blob.  The handler has
no fetch capability at all, so the second component (network calls) is
structurally zero. -/
def get_weather (row : Option String) (parse : String → Option String) :
    Except String (Option String) × Nat :=
  match row with
  | none => (Except.ok none, 0)
  | some data =>
    match parse data with
    | none => (Except.error "Failed to parse cached weather data", 0)
    | some json => (Except.ok (some json), 0)

/-- A Google-backed calendar row used in the cache-read scenarios. -/
def calGoogle : CalendarRow := { id := "c1", google_id := some "g1", url := none }

/-- A URL-backed (ICS) calendar row used in the cache-read scenarios. -/
def calIcs : CalendarRow :=
  { id := "c2", google_id := none, url := some "https://calendar.google.com/f.ics" }

/-- Concrete stale-cache request: the cached events row is 700 s old (older
than 10 minutes) and the access-token step fails. -/
def feedStaleFail : FeedOutcome :=
  get_calendar_feed true (some calGoogle) (some ("OLD", 0)) none 700
    (Except.error "boom") (Except.ok "EV") (Except.ok "ICS")

/-- C6 counterexample: with a previously cached events row ("OLD", stale at
700 s) and a failing refresh (the access-token step errors), the handler
returns the error to the caller — not the previously cached value — and
leaves the cache row unchanged; the claim's stale-but-available fallback does
not exist in this read path. -/
theorem get_calendar_feed_stale_error_propagates :
    feedStaleFail.result = Except.error "Failed to get access token: boom" ∧
    feedStaleFail.gcache = some ("OLD", 0) ∧
    ¬ feedStaleFail.result = Except.ok (FeedPayload.jsonEvents "OLD") := by
  refine ⟨rfl, rfl, ?_⟩
  intro h
  exact Except.noConfusion h

/-- C6 amended: a read of a per-calendar Google events row returns the cached
value with no fetch while the row is fresher than 10 minutes; a stale or
missing row triggers an inline refresh, and a refresh failure (of the token
step or of the events fetch) propagates to the caller as an error whether or
not a previous value exists, leaving the cached row unchanged; on success the
row is overwritten with the new events stamped `now`. -/
theorem get_calendar_feed_refresh_spec (cal : CalendarRow) (gid : String)
    (gcache : Option (String × Int)) (icache : Option String) (now : Int)
    (tokenOutcome eventsOutcome icsOutcome : Except String String) :
    (∀ ev at1, cal.google_id = some gid → gcache = some (ev, at1) →
      Int.tdiv (now - at1) 60 < 10 →
      get_calendar_feed true (some cal) gcache icache now tokenOutcome eventsOutcome icsOutcome =
        ⟨Except.ok (FeedPayload.jsonEvents ev), gcache, icache, 0⟩) ∧
    (∀ ev at1 e, cal.google_id = some gid → gcache = some (ev, at1) →
      ¬ Int.tdiv (now - at1) 60 < 10 → tokenOutcome = Except.error e →
      get_calendar_feed true (some cal) gcache icache now tokenOutcome eventsOutcome icsOutcome =
        ⟨Except.error ("Failed to get access token: " ++ e), gcache, icache, 0⟩) ∧
    (∀ ev at1 tok e, cal.google_id = some gid → gcache = some (ev, at1) →
      ¬ Int.tdiv (now - at1) 60 < 10 → tokenOutcome = Except.ok tok →
      eventsOutcome = Except.error e →
      get_calendar_feed true (some cal) gcache icache now tokenOutcome eventsOutcome icsOutcome =
        ⟨Except.error ("Failed to fetch events: " ++ e), gcache, icache, 1⟩) ∧
    (∀ ev at1 tok newEv, cal.google_id = some gid → gcache = some (ev, at1) →
      ¬ Int.tdiv (now - at1) 60 < 10 → tokenOutcome = Except.ok tok →
      eventsOutcome = Except.ok newEv →
      get_calendar_feed true (some cal) gcache icache now tokenOutcome eventsOutcome icsOutcome =
        ⟨Except.ok (FeedPayload.jsonEvents newEv), some (newEv, now), icache, 1⟩) ∧
    (∀ e, cal.google_id = some gid → gcache = none → tokenOutcome = Except.error e →
      get_calendar_feed true (some cal) gcache icache now tokenOutcome eventsOutcome icsOutcome =
        ⟨Except.error ("Failed to get access token: " ++ e), none, icache, 0⟩) := by
  refine ⟨?_, ?_, ?_, ?_, ?_⟩
  · intro ev at1 hg hc hfresh
    simp [get_calendar_feed, hg, hc, hfresh]
  · intro ev at1 e hg hc hstale htok
    simp [get_calendar_feed, google_events_refresh, hg, hc, hstale, htok]
  · intro ev at1 tok e hg hc hstale htok hev
    simp [get_calendar_feed, google_events_refresh, hg, hc, hstale, htok, hev]
  · intro ev at1 tok newEv hg hc hstale htok hev
    simp [get_calendar_feed, google_events_refresh, hg, hc, hstale, htok, hev]
  · intro e hg hc htok
    simp [get_calendar_feed, google_events_refresh, hg, hc, htok]

/-- C6 amended witness: a fresh cached row (age 60 s < 10 min) is returned
as-is with no fetch. -/
theorem get_calendar_feed_refresh_spec_witness :
    get_calendar_feed true (some calGoogle) (some ("EV", 0)) none 60
        (Except.error "boom") (Except.ok "NEW") (Except.ok "ICS") =
      ⟨Except.ok (FeedPayload.jsonEvents "EV"), some ("EV", 0), none, 0⟩ :=
  (get_calendar_feed_refresh_spec calGoogle "g1" (some ("EV", 0)) none 60
      (Except.error "boom") (Except.ok "NEW") (Except.ok "ICS")).1
    "EV" 0 rfl rfl (by decide)

/-- Concrete cold-start ICS request: no cached feed row yet, download
succeeds. -/
def feedIcsCold : FeedOutcome :=
  get_calendar_feed true (some calIcs) none none 0
    (Except.ok "T") (Except.ok "EV") (Except.ok "FEED")

/-- C7 counterexample: a read of a URL-backed (ICS) calendar before any
scheduler cycle has populated its slot does not return empty — it performs
one inline network fetch, persists the body, and returns it. -/
theorem get_calendar_feed_ics_cold_read_fetches :
    feedIcsCold.fetches = 1 ∧
    feedIcsCold.result = Except.ok (FeedPayload.ics "FEED") ∧
    feedIcsCold.icache = some "FEED" ∧
    ¬ feedIcsCold.fetches = 0 := by
  refine ⟨rfl, rfl, rfl, by decide⟩

/-- C7 amended: the weather read never performs network I/O (the handler has
no fetch capability) and returns empty before the first scheduler cycle has
populated the slot; an ICS-feed read returns the cached body verbatim with no
network I/O and no staleness check whenever a cached row exists, but on an
empty slot it performs one inline fetch itself, persisting and returning the
body on success and surfacing an error on failure. -/
theorem unbounded_cache_reads_spec (row : Option String)
    (parse : String → Option String) (cal : CalendarRow) (u : String)
    (gcache : Option (String × Int)) (now : Int)
    (tokenOutcome eventsOutcome icsOutcome : Except String String) :
    (get_weather none parse = (Except.ok none, 0)) ∧
    ((get_weather row parse).2 = 0) ∧
    (∀ feed, cal.google_id = none → cal.url = some u →
      get_calendar_feed true (some cal) gcache (some feed) now
          tokenOutcome eventsOutcome icsOutcome =
        ⟨Except.ok (FeedPayload.ics feed), gcache, some feed, 0⟩) ∧
    (∀ body, cal.google_id = none → cal.url = some u → icsOutcome = Except.ok body →
      get_calendar_feed true (some cal) gcache none now
          tokenOutcome eventsOutcome icsOutcome =
        ⟨Except.ok (FeedPayload.ics body), gcache, some body, 1⟩) ∧
    (∀ e, cal.google_id = none → cal.url = some u → icsOutcome = Except.error e →
      get_calendar_feed true (some cal) gcache none now
          tokenOutcome eventsOutcome icsOutcome =
        ⟨Except.error "Failed to fetch calendar from provider", gcache, none, 1⟩) := by
  refine ⟨rfl, ?_, ?_, ?_, ?_⟩
  · cases row with
    | none => rfl
    | some data =>
      cases h : parse data <;> simp [get_weather, h]
  · intro feed hg hu
    simp [get_calendar_feed, hg, hu]
  · intro body hg hu hics
    simp [get_calendar_feed, hg, hu, hics]
  · intro e hg hu hics
    simp [get_calendar_feed, hg, hu, hics]

/-- C7 amended witness: with a cached ICS body present, the read returns it
verbatim with zero fetches regardless of its age. -/
theorem unbounded_cache_reads_spec_witness :
    get_calendar_feed true (some calIcs) none (some "OLDFEED") 999999
        (Except.ok "T") (Except.ok "EV") (Except.ok "FRESH") =
      ⟨Except.ok (FeedPayload.ics "OLDFEED"), none, some "OLDFEED", 0⟩ :=
  (unbounded_cache_reads_spec none (fun _ => none) calIcs
      "https://calendar.google.com/f.ics" none 999999
      (Except.ok "T") (Except.ok "EV") (Except.ok "FRESH")).2.2.1
    "OLDFEED" rfl rfl

/-- `DEFAULT_REFRESH_SECONDS` from `background.rs`: one hour. -/
def DEFAULT_REFRESH_SECONDS : Nat := 60 * 60

/-- Rust `str::parse::<u64>()`: a nonempty run of decimal digits whose value
fits in a `u64`.  (The Rust parser also accepts one leading plus sign; that
difference does not affect any stated property.) -/
def parse_u64 (s : String) : Option Nat :=
  let cs := s.toList
  if cs.isEmpty then none
  else if cs.all Char.isDigit then
    let n := cs.foldl (fun acc c => acc * 10 + (c.toNat - Char.toNat '0')) 0
    if n < 2 ^ 64 then some n else none
  else none

/-- `refresh_interval_seconds` from `background.rs`: the
`REFRESH_INTERVAL_SECONDS` environment variable parsed as `u64`, defaulting
to 3600 on absence or parse failure, then clamped to a floor of 10. -/
def refresh_interval_seconds (env : Option String) : Nat :=
  max ((env.bind parse_u64).getD DEFAULT_REFRESH_SECONDS) 10

/-- An observable event of the background loop: one full refresh pass, or a
sleep of the given number of seconds. -/
inductive LoopEvent where
  | refreshPass
  | sleep (secs : Nat)
deriving DecidableEq

/-- The event trace of `start_refresh_loop` from `background.rs`, given the
environment value at startup and the values read at the start of each
subsequent cycle (the source re-reads the variable each cycle into a shadowed
binding used only by the log line; the `tokio::time::sleep` call refers
lexically to the binding computed once before the loop, so every sleep uses
the startup value).  The trace runs the initial refresh pass immediately,
then for each cycle sleeps and runs a pass. -/
def start_refresh_loop_trace (startupEnv : Option String)
    (cycleEnvs : List (Option String)) : List LoopEvent :=
  let secs := refresh_interval_seconds startupEnv
  LoopEvent.refreshPass ::
    cycleEnvs.flatMap (fun _cycleEnv => [LoopEvent.sleep secs, LoopEvent.refreshPass])

/-- C8 failing input evaluated: with the variable unset at startup and set to
`"10"` before the second cycle, the loop still sleeps 3600 s in that cycle
(the claim requires a 10 s sleep), even though re-parsing the new value would
give 10. -/
theorem start_refresh_loop_trace_ignores_cycle_env :
    start_refresh_loop_trace none [some "10"] =
      [LoopEvent.refreshPass, LoopEvent.sleep 3600, LoopEvent.refreshPass] ∧
    refresh_interval_seconds (some "10") = 10 ∧
    ¬ start_refresh_loop_trace none [some "10"] =
      [LoopEvent.refreshPass, LoopEvent.sleep 10, LoopEvent.refreshPass] := by
  refine ⟨by decide, by decide, by decide⟩

/-- One sub-task of a background refresh cycle, in invocation order. -/
inductive RefreshStep where
  | weather
  | calendar (id : String)
deriving DecidableEq

/-- The in-memory image of the three cache tables the scheduler writes:
the single `weather_cache` row, and the `google_calendar_cache` and
`calendar_feed_cache` rows keyed by calendar id. -/
structure CacheState where
  weather : Option String
  gcal : List (String × String)
  ical : List (String × String)
deriving DecidableEq

/-- The SQL upsert (`INSERT ... ON CONFLICT (calendar_id) DO UPDATE`) on a
cache table keyed by calendar id. -/
def upsert (cache : List (String × String)) (k v : String) : List (String × String) :=
  if cache.any (fun p => p.1 = k) then
    cache.map (fun p => if p.1 = k then (k, v) else p)
  else cache ++ [(k, v)]

/-- `refresh_weather` from `background.rs`: skip silently when no zip code is
configured or the API key is empty; otherwise the fetch outcome (collapsing
send, status and JSON-parse failures) either errors — leaving the cache row
unchanged — or upserts the single weather row.  Returns the sub-task result
and the row after the call. -/
def refresh_weather (weather : Option String) (zip : Option String)
    (apiKey : String) (outcome : Except String String) :
    Except String Unit × Option String :=
  match zip with
  | none => (Except.ok (), weather)
  | some _z =>
    if apiKey = "" then (Except.ok (), weather)
    else
      match outcome with
      | Except.error e => (Except.error e, weather)
      | Except.ok data => (Except.ok (), some data)

/-- `refresh_calendar_feeds` from `background.rs`: walk the calendars in
creation order; for a Google-backed calendar, `googleOutcome` collapses the
access-token step, the events fetch and the JSON serialization — on success
upsert the events row, on failure log and continue; for a URL-backed
calendar, `icsOutcome` collapses the download — on success upsert the feed
row, on failure continue; a calendar with neither id nor URL is skipped. -/
def refresh_calendar_feeds (cals : List CalendarRow)
    (gcal ical : List (String × String))
    (googleOutcome icsOutcome : String → Except String String) :
    List (String × String) × List (String × String) :=
  match cals with
  | [] => (gcal, ical)
  | c :: rest =>
    match c.google_id with
    | some _gid =>
      match googleOutcome c.id with
      | Except.ok ev =>
        refresh_calendar_feeds rest (upsert gcal c.id ev) ical googleOutcome icsOutcome
      | Except.error _ =>
        refresh_calendar_feeds rest gcal ical googleOutcome icsOutcome
    | none =>
      match c.url with
      | some _u =>
        match icsOutcome c.id with
        | Except.ok feed =>
          refresh_calendar_feeds rest gcal (upsert ical c.id feed) googleOutcome icsOutcome
        | Except.error _ =>
          refresh_calendar_feeds rest gcal ical googleOutcome icsOutcome
      | none => refresh_calendar_feeds rest gcal ical googleOutcome icsOutcome

/-- `refresh_all` from `background.rs`: run the weather sub-task, discarding
its error (`if let Err` plus a log line), then the calendar sub-tasks; the
function itself always returns `Ok(())`.  The result carries the cache state
after the cycle, the ordered list of sub-tasks invoked, and the `Ok`
completion flag. -/
def refresh_all (st : CacheState) (zip : Option String) (apiKey : String)
    (weatherOutcome : Except String String) (cals : List CalendarRow)
    (googleOutcome icsOutcome : String → Except String String) :
    CacheState × List RefreshStep × Bool :=
  let w := refresh_weather st.weather zip apiKey weatherOutcome
  let gi := refresh_calendar_feeds cals st.gcal st.ical googleOutcome icsOutcome
  (⟨w.2, gi.1, gi.2⟩,
   RefreshStep.weather :: cals.map (fun c => RefreshStep.calendar c.id),
   true)

/-- C9: in a background cycle whose weather fetch fails while the (single,
Google-backed) configured calendar's refresh succeeds, the cycle still
completes with `Ok`, the calendar cache row is updated with the new events,
the weather row is left unchanged, the sub-tasks run as weather first then
the calendar, and the loop trace goes on to sleep and run another refresh
pass. -/
theorem refresh_all_partial_failure (st : CacheState) (z apiKey we ev : String)
    (c : CalendarRow) (gid : String)
    (googleOutcome icsOutcome : String → Except String String)
    (startupEnv : Option String) (e1 : Option String) (rest : List (Option String)) :
    apiKey ≠ "" → c.google_id = some gid → googleOutcome c.id = Except.ok ev →
    refresh_all st (some z) apiKey (Except.error we) [c] googleOutcome icsOutcome =
      (⟨st.weather, upsert st.gcal c.id ev, st.ical⟩,
       [RefreshStep.weather, RefreshStep.calendar c.id],
       true) ∧
    start_refresh_loop_trace startupEnv (e1 :: rest) =
      LoopEvent.refreshPass ::
        LoopEvent.sleep (refresh_interval_seconds startupEnv) ::
        LoopEvent.refreshPass ::
        rest.flatMap (fun _ =>
          [LoopEvent.sleep (refresh_interval_seconds startupEnv),
           LoopEvent.refreshPass]) := by
  intro hkey hg hok
  constructor
  · simp [refresh_all, refresh_weather, refresh_calendar_feeds, hkey, hg, hok]
  · simp [start_refresh_loop_trace]

/-- Baseline cache state for the partial-failure witness: a stale weather
blob and an empty calendar row set. -/
def cacheEx : CacheState := { weather := some "W0", gcal := [], ical := [] }

/-- C9 witness: concrete cycle in which the weather fetch errors and the
single Google calendar `"c1"` refresh succeeds — the weather row keeps its
old blob, the events row for `"c1"` is written, the cycle reports `Ok`, and
the loop trace continues past the cycle. -/
theorem refresh_all_partial_failure_witness :
    refresh_all cacheEx (some "94110") "KEY" (Except.error "net")
        [calGoogle] (fun _ => Except.ok "EV") (fun _ => Except.error "x") =
      (⟨some "W0", [("c1", "EV")], []⟩,
       [RefreshStep.weather, RefreshStep.calendar "c1"],
       true) ∧
    start_refresh_loop_trace none [none] =
      [LoopEvent.refreshPass, LoopEvent.sleep 3600, LoopEvent.refreshPass] :=
  refresh_all_partial_failure cacheEx "94110" "KEY" "net" "EV" calGoogle "g1"
    (fun _ => Except.ok "EV") (fun _ => Except.error "x") none none []
    (by decide) rfl rfl

/-- Whether `pre` occurs at the head of `l` (Rust slice/pattern matching at
one position). -/
def leadsWith : List Char → List Char → Bool
  | [], _ => true
  | _ :: _, [] => false
  | a :: as, b :: bs => a = b && leadsWith as bs

/-- Rust `str::contains(&str)`: whether `needle` occurs as a contiguous
substring of the haystack. -/
def hasSubstr (needle : List Char) : List Char → Bool
  | [] => needle.isEmpty
  | c :: t => leadsWith needle (c :: t) || hasSubstr needle t

/-- The path-traversal guard of `get_photo` in `handlers/google_photos.rs`:
the requested filename must contain no `".."`, no `'/'` and no `'\'`. -/
def valid_photo_filename (filename : String) : Bool :=
  !(hasSubstr ['.', '.'] filename.toList ||
    filename.toList.contains '/' ||
    filename.toList.contains '\\')

/-- `get_photo` from `handlers/google_photos.rs`, after its authentication
prelude (`authOk`).  Paths are lists of components; `photosDir.join filename`
appends the filename as a single component, which is what `PathBuf::join`
does for a relative argument free of path separators — the join happens only
after the guard has excluded `'/'` and `'\'`.  The filesystem is a pair of
capabilities (`fsExists`, `fsRead`); the second result component counts the
filesystem accesses performed. -/
def get_photo (authOk : Bool) (filename : String) (photosDir : List String)
    (fsExists : List String → Bool) (fsRead : List String → Option (List Nat)) :
    Except String (String × List Nat) × Nat :=
  if authOk = false then (Except.error "Unauthorized", 0)
  else if valid_photo_filename filename = false then
    (Except.error "Invalid filename", 0)
  else
    let file_path := photosDir ++ [filename]
    if fsExists file_path = false then (Except.error "Photo not found", 1)
    else
      let content_type :=
        if (filename.toLower.toList).reverse.take 4 = ['g', 'n', 'p', '.'] then "image/png"
        else "image/jpeg"
      match fsRead file_path with
      | none => (Except.error "Failed to read photo", 2)
      | some bytes => (Except.ok (content_type, bytes), 2)

/-- C10: a filename containing `".."`, `'/'` or `'\'` is rejected with the
bad-request error before any filesystem access (zero accesses), and every
successfully served photo is read from the path `photosDir ++ [filename]` —
one single component (free of `".."` and of both separators) directly inside
the configured photos directory. -/
theorem get_photo_no_traversal (authOk : Bool) (filename : String)
    (photosDir : List String) (fsExists : List String → Bool)
    (fsRead : List String → Option (List Nat)) :
    (valid_photo_filename filename = false →
      get_photo true filename photosDir fsExists fsRead =
        (Except.error "Invalid filename", 0)) ∧
    (∀ ct bytes,
      (get_photo authOk filename photosDir fsExists fsRead).1 =
          Except.ok (ct, bytes) →
      valid_photo_filename filename = true ∧
      fsRead (photosDir ++ [filename]) = some bytes) := by
  constructor
  · intro hbad
    simp [get_photo, hbad]
  · intro ct bytes hok
    by_cases hauth : authOk = false
    · rw [get_photo, if_pos hauth] at hok
      exact absurd hok (by simp)
    · rw [get_photo, if_neg hauth] at hok
      by_cases hval : valid_photo_filename filename = false
      · rw [if_pos hval] at hok
        exact absurd hok (by simp)
      · rw [if_neg hval] at hok
        refine ⟨by revert hval; cases valid_photo_filename filename <;> simp, ?_⟩
        by_cases hex : fsExists (photosDir ++ [filename]) = false
        · rw [if_pos hex] at hok
          exact absurd hok (by simp)
        · rw [if_neg hex] at hok
          revert hok
          cases hread : fsRead (photosDir ++ [filename]) with
          | none => simp
          | some b =>
            intro hok
            simp at hok
            rw [hok.2]

/-- C10 witness: the traversal attempt `"../secret"` is rejected with zero
filesystem accesses even against a filesystem that would satisfy every
lookup. -/
theorem get_photo_no_traversal_witness :
    get_photo true "../secret" ["data", "photos"] (fun _ => true)
        (fun _ => some [1, 2]) =
      (Except.error "Invalid filename", 0) :=
  (get_photo_no_traversal true "../secret" ["data", "photos"] (fun _ => true)
      (fun _ => some [1, 2])).1 (by decide)
